import Mathlib

/-!
Verification of the link validation and classification engine of
src/server.js (WebFetcher): a shallow embedding of getPageContent,
getStatusColor, processLink and the /link-details handler, with the
Promise.all join modelled as a positional fill driven by an arbitrary
completion schedule.
-/

/-- An anchor element as queried from the parsed document: the raw
attribute values, each absent attribute being `none`. -/
structure Anchor where
  href : Option String
  text : String
  ariaLabel : Option String
  target : Option String
  classNames : Option String
deriving DecidableEq, Repr

/-- Outcome of one axios.get probe of a href: a response (status plus the
URL reached after redirects), a thrown error still carrying a response
object (axios on a non-2xx status), or a thrown error with no response
at all (network failure, DNS failure, timeout). -/
inductive ProbeResult where
  | success (status : Nat) (finalUrl : String)
  | errorWithResponse (status : Nat) (finalUrl : String)
  | errorNoResponse
deriving DecidableEq, Repr

/-- The record built by processLink for one anchor. -/
structure LinkRecord where
  linkType : String
  linkText : String
  ariaLabel : String
  url : Option String
  redirectedUrl : String
  statusCode : Nat
  target : String
  statusColor : String
  originalUrlColor : String
  redirectedUrlColor : String
deriving DecidableEq, Repr

/-- JavaScript truthiness of an optional string: undefined and the empty
string are falsy, every other string is truthy. -/
def jsTruthy : Option String → Bool
  | none => false
  | some s => !(s == "")

/-- Whether the first character list starts the second one. -/
def leadMatch : List Char → List Char → Bool
  | [], _ => true
  | _ :: _, [] => false
  | a :: as, b :: bs => a == b && leadMatch as bs

/-- JavaScript String.prototype.includes: substring containment. -/
def jsIncludes (s search : String) : Bool :=
  (List.range (s.toList.length + 1)).any fun i =>
    leadMatch search.toList (s.toList.drop i)

/-- src/server.js lines 30-35: map a status code to a severity color,
checked high to low, first match wins. -/
def getStatusColor (statusCode : Nat) : String :=
  if statusCode ≥ 500 then "red"
  else if statusCode ≥ 400 then "orange"
  else if statusCode ≥ 300 then "yellow"
  else "green"

/-- src/server.js lines 44-52: the linkType cascade over the classNames
string, using JavaScript includes, i.e. substring containment. -/
def linkTypeOf (classNames : String) : String :=
  if jsIncludes classNames "cta" then "cta"
  else if jsIncludes classNames "button" then "button"
  else if jsIncludes classNames "link" then "link"
  else "unknown"

/-- src/server.js lines 38-88 (processLink): build the record for one
anchor; the probe argument stands for awaiting axios.get on the href. -/
def processLink (probe : String → ProbeResult) (a : Anchor) : LinkRecord :=
  let base : LinkRecord :=
    { linkType := linkTypeOf (a.classNames.getD "")
      linkText := a.text.trim
      ariaLabel := a.ariaLabel.getD ""
      url := a.href
      redirectedUrl := ""
      statusCode := 200
      target := a.target.getD ""
      statusColor := "green"
      originalUrlColor := ""
      redirectedUrlColor := "" }
  match a.href with
  | none => base
  | some h =>
      if h = "" then base
      else
        match probe h with
        | ProbeResult.success status finalUrl =>
            { base with
              statusCode := status
              redirectedUrl := finalUrl
              statusColor := getStatusColor status
              originalUrlColor := if h ≠ finalUrl then "blue" else ""
              redirectedUrlColor := if h ≠ finalUrl then "purple" else "" }
        | ProbeResult.errorWithResponse status _ =>
            { base with
              statusCode := status
              statusColor := getStatusColor status }
        | ProbeResult.errorNoResponse => base

/-- Whether processLink reaches the axios.get call for this anchor: the
guard `if (href)` on line 67. -/
def probeCalled (a : Anchor) : Bool := jsTruthy a.href

/-- src/server.js lines 109-111: one processLink promise per anchor, in
document order, joined by Promise.all. -/
def collectLinkDetails (probe : String → ProbeResult) (anchors : List Anchor) :
    List LinkRecord :=
  anchors.map (processLink probe)

/-- One completion event of the Promise.all join: task i finishes and its
result is written at position i of the result array. -/
def joinStep {α : Type} (tasks : List α) (arr : List (Option α)) (i : Nat) :
    List (Option α) :=
  match tasks[i]? with
  | some v => arr.set i (some v)
  | none => arr

/-- Model of the Promise.all join: tasks complete in the order given by
the schedule, and each completed result is written at the position of its
task, into an array initialized with no results. -/
def promiseAllJoin {α : Type} (tasks : List α) (sched : List Nat) :
    List (Option α) :=
  sched.foldl (joinStep tasks) (List.replicate tasks.length none)

/-- src/server.js lines 12-27 (getPageContent): `fetched` is the body
axios.get obtained, or `none` when it threw; `parse` stands for
cheerio.load followed by selecting all anchors; `primaryAreaHtml` is the
html of the main template container, when present. -/
def getPageContent (fetched : Option String) (includeUhf : Bool)
    (parse : String → List Anchor) (primaryAreaHtml : String → Option String) :
    Option (List Anchor) :=
  match fetched with
  | none => none
  | some data =>
      if includeUhf then some (parse data)
      else some (parse ((primaryAreaHtml data).getD ""))

/-- Response of the /link-details route handler. -/
inductive HandlerResponse where
  | ok (links : List LinkRecord)
  | err (status : Nat) (message : String)
deriving DecidableEq, Repr

/-- src/server.js lines 104-113: the /link-details handler, taking the
document (the anchors getPageContent yielded, or none). -/
def linkDetailsHandler (probe : String → ProbeResult)
    (doc : Option (List Anchor)) : HandlerResponse :=
  match doc with
  | none => HandlerResponse.err 500 "Failed to fetch page content."
  | some anchors => HandlerResponse.ok (collectLinkDetails probe anchors)

/-- Split a character list on the space character, keeping empty pieces,
as splitting a string on a single-space separator does. -/
def splitOnSpace : List Char → List (List Char)
  | [] => [[]]
  | c :: cs =>
      if c = ' ' then [] :: splitOnSpace cs
      else
        match splitOnSpace cs with
        | [] => [[c]]
        | t :: ts => (c :: t) :: ts

/-- Modelled from the spec: role classification by token membership in
the space-separated classNames string, the reading the spec gives of the
linkType cascade, for comparison with linkTypeOf. -/
def linkTypeSpecTokens (classNames : String) : String :=
  let toks := splitOnSpace classNames.toList
  if toks.contains "cta".toList then "cta"
  else if toks.contains "button".toList then "button"
  else if toks.contains "link".toList then "link"
  else "unknown"

/-- JSON.stringify omits object fields whose value is undefined: the
serialized record carries a url field exactly when url is present. -/
def jsonHasUrlField (r : LinkRecord) : Bool := r.url.isSome

/-- The join step never changes the length of the result array. -/
theorem joinStep_length {α : Type} (tasks : List α) (arr : List (Option α))
    (i : Nat) : (joinStep tasks arr i).length = arr.length := by
  unfold joinStep
  cases tasks[i]? <;> simp

/-- Folding join steps never changes the length of the result array. -/
theorem foldl_joinStep_length {α : Type} (tasks : List α) (sched : List Nat) :
    ∀ arr : List (Option α),
      (sched.foldl (joinStep tasks) arr).length = arr.length := by
  induction sched with
  | nil => intro arr; rfl
  | cons i rest ih =>
      intro arr
      rw [List.foldl_cons, ih, joinStep_length]

/-- A position whose task never completes in the schedule is untouched. -/
theorem foldl_joinStep_getElem_not_mem {α : Type} (tasks : List α)
    (sched : List Nat) (j : Nat) (hj : j ∉ sched) :
    ∀ arr : List (Option α),
      (sched.foldl (joinStep tasks) arr)[j]? = arr[j]? := by
  induction sched with
  | nil => intro arr; rfl
  | cons i rest ih =>
      intro arr
      have hji : j ≠ i := fun h => hj (h ▸ List.mem_cons_self i rest)
      have hjr : j ∉ rest := fun h => hj (List.mem_cons_of_mem i h)
      rw [List.foldl_cons, ih hjr]
      unfold joinStep
      cases tasks[i]? with
      | none => rfl
      | some v => exact List.getElem?_set_ne (Ne.symm hji)

/-- A position whose task completes somewhere in the schedule ends up
holding the result of that task. -/
theorem foldl_joinStep_getElem_mem {α : Type} (tasks : List α)
    (sched : List Nat) (j : Nat) (hj : j ∈ sched) (hlt : j < tasks.length) :
    ∀ arr : List (Option α), arr.length = tasks.length →
      (sched.foldl (joinStep tasks) arr)[j]? = some (some (tasks.get ⟨j, hlt⟩)) := by
  induction sched with
  | nil => cases hj
  | cons i rest ih =>
      intro arr harr
      rw [List.foldl_cons]
      by_cases hjr : j ∈ rest
      · exact ih hjr (joinStep tasks arr i) (by rw [joinStep_length, harr])
      · have hji : j = i := by
          rcases List.mem_cons.mp hj with h | h
          · exact h
          · exact absurd h hjr
        subst hji
        rw [foldl_joinStep_getElem_not_mem tasks rest j hjr]
        unfold joinStep
        rw [List.getElem?_eq_getElem hlt]
        exact List.getElem?_set_self (by rw [harr]; exact hlt)

/-- Whenever the completion schedule is a permutation of the task indices,
the Promise.all join yields exactly the task results, positionally. -/
theorem promiseAllJoin_perm {α : Type} (tasks : List α) (sched : List Nat)
    (hperm : sched.Perm (List.range tasks.length)) :
    promiseAllJoin tasks sched = tasks.map some := by
  unfold promiseAllJoin
  apply List.ext_getElem?
  intro j
  by_cases hlt : j < tasks.length
  · have hjs : j ∈ sched := hperm.mem_iff.mpr (List.mem_range.mpr hlt)
    rw [foldl_joinStep_getElem_mem tasks sched j hjs hlt _ (by simp),
      List.getElem?_map, List.getElem?_eq_getElem hlt]
    rfl
  · have hle : tasks.length ≤ j := Nat.le_of_not_lt hlt
    have h1 : (List.foldl (joinStep tasks) (List.replicate tasks.length none) sched)[j]? = none := by
      apply List.getElem?_eq_none
      rw [foldl_joinStep_length]
      simpa using hle
    have h2 : (List.map some tasks)[j]? = none := by
      apply List.getElem?_eq_none
      simpa using hle
    rw [h1, h2]

/-- C1 counterexample: an anchor whose probe throws an error that still
carries a response (status 404, final URL populated in the response)
gets its statusCode from that response, but its redirectedUrl stays
empty instead of being populated from the response. -/
theorem c1_counterexample :
    (processLink (fun _ => ProbeResult.errorWithResponse 404 "https://a.example/final")
      { href := some "https://a.example", text := "Go", ariaLabel := none,
        target := none, classNames := none }).statusCode = 404 ∧
    (processLink (fun _ => ProbeResult.errorWithResponse 404 "https://a.example/final")
      { href := some "https://a.example", text := "Go", ariaLabel := none,
        target := none, classNames := none }).redirectedUrl = "" ∧
    (processLink (fun _ => ProbeResult.errorWithResponse 404 "https://a.example/final")
      { href := some "https://a.example", text := "Go", ariaLabel := none,
        target := none, classNames := none }).redirectedUrl ≠ "https://a.example/final" := by
  refine ⟨rfl, rfl, ?_⟩
  decide

/-- C1 (amended): for an anchor with a truthy href, statusCode is
populated from the response both when the probe returns normally and
when it throws an error carrying a response; redirectedUrl is populated
from the response only on the non-throwing path, and stays empty when
the error path runs, even though the error response carries a final URL. -/
theorem c1_theorem (probe : String → ProbeResult) (a : Anchor) (h : String)
    (hh : a.href = some h) (hne : h ≠ "") :
    (∀ st fu, probe h = ProbeResult.success st fu →
      (processLink probe a).statusCode = st ∧
      (processLink probe a).redirectedUrl = fu) ∧
    (∀ st fu, probe h = ProbeResult.errorWithResponse st fu →
      (processLink probe a).statusCode = st ∧
      (processLink probe a).redirectedUrl = "") := by
  constructor <;> intro st fu hp <;> simp [processLink, hh, hne, hp]

/-- C1 witness: the amended theorem applied at a concrete anchor and
probe that throws a 500 error carrying a response. -/
theorem c1_witness :
    (processLink (fun _ => ProbeResult.errorWithResponse 500 "https://b.example/x")
      { href := some "https://b.example", text := "", ariaLabel := none,
        target := none, classNames := none }).statusCode = 500 ∧
    (processLink (fun _ => ProbeResult.errorWithResponse 500 "https://b.example/x")
      { href := some "https://b.example", text := "", ariaLabel := none,
        target := none, classNames := none }).redirectedUrl = "" := by
  have h := c1_theorem (fun _ => ProbeResult.errorWithResponse 500 "https://b.example/x")
    { href := some "https://b.example", text := "", ariaLabel := none,
      target := none, classNames := none }
    "https://b.example" rfl (by decide)
  exact h.2 500 "https://b.example/x" rfl

/-- C2 counterexample: the classNames string "ctafoo" has no cta token
under space-separated token membership, so the claim predicts linkType
"unknown", but the code tests substring containment and yields "cta". -/
theorem c2_counterexample :
    (processLink (fun _ => ProbeResult.errorNoResponse)
      { href := none, text := "", ariaLabel := none, target := none,
        classNames := some "ctafoo" }).linkType = "cta" ∧
    linkTypeSpecTokens "ctafoo" = "unknown" ∧
    (processLink (fun _ => ProbeResult.errorNoResponse)
      { href := none, text := "", ariaLabel := none, target := none,
        classNames := some "ctafoo" }).linkType ≠ linkTypeSpecTokens "ctafoo" := by
  refine ⟨rfl, rfl, ?_⟩
  decide

/-- C2 (amended): linkType is determined by substring containment (not
token membership) in the classNames string, first match wins, in the
fixed order cta, then button, then link, else unknown; processLink
applies this cascade to the classNames attribute defaulted to "". -/
theorem c2_theorem (probe : String → ProbeResult) (a : Anchor) :
    (processLink probe a).linkType = linkTypeOf (a.classNames.getD "") ∧
    ∀ cls : String,
      (jsIncludes cls "cta" = true → linkTypeOf cls = "cta") ∧
      (jsIncludes cls "cta" = false → jsIncludes cls "button" = true →
        linkTypeOf cls = "button") ∧
      (jsIncludes cls "cta" = false → jsIncludes cls "button" = false →
        jsIncludes cls "link" = true → linkTypeOf cls = "link") ∧
      (jsIncludes cls "cta" = false → jsIncludes cls "button" = false →
        jsIncludes cls "link" = false → linkTypeOf cls = "unknown") := by
  constructor
  · unfold processLink
    cases a.href with
    | none => rfl
    | some h =>
        by_cases hne : h = ""
        · simp [hne]
        · cases hp : probe h <;> simp [hne, hp]
  · intro cls
    refine ⟨fun h1 => ?_, fun h1 h2 => ?_, fun h1 h2 h3 => ?_, fun h1 h2 h3 => ?_⟩ <;>
      simp [linkTypeOf, h1] <;> simp [h2] <;> simp [h3]

/-- C2 witness: the amended theorem applied at a concrete anchor whose
classNames is "x my-button", classified "button" via substring match. -/
theorem c2_witness :
    (processLink (fun _ => ProbeResult.errorNoResponse)
      { href := none, text := "", ariaLabel := none, target := none,
        classNames := some "x my-button" }).linkType = "button" := by
  have h := c2_theorem (fun _ => ProbeResult.errorNoResponse)
    { href := none, text := "", ariaLabel := none, target := none,
      classNames := some "x my-button" }
  rw [h.1]
  exact ((h.2 "x my-button").2.1 (by decide) (by decide))

/-- C3 counterexample: an anchor with a href whose probe throws with no
response yields url "https://c.example" and redirectedUrl "", which
differ, yet both divergence colors stay empty, refuting the claimed
equivalence between color non-emptiness and url differing from
redirectedUrl. -/
theorem c3_counterexample :
    (processLink (fun _ => ProbeResult.errorNoResponse)
      { href := some "https://c.example", text := "", ariaLabel := none,
        target := none, classNames := none }).url ≠
      some (processLink (fun _ => ProbeResult.errorNoResponse)
        { href := some "https://c.example", text := "", ariaLabel := none,
          target := none, classNames := none }).redirectedUrl ∧
    (processLink (fun _ => ProbeResult.errorNoResponse)
      { href := some "https://c.example", text := "", ariaLabel := none,
        target := none, classNames := none }).originalUrlColor = "" ∧
    (processLink (fun _ => ProbeResult.errorNoResponse)
      { href := some "https://c.example", text := "", ariaLabel := none,
        target := none, classNames := none }).redirectedUrlColor = "" := by
  refine ⟨?_, rfl, rfl⟩
  decide

/-- C3 (amended): originalUrlColor is non-empty exactly when
redirectedUrlColor is, and both are non-empty exactly when the anchor
has a truthy href, the probe returned a response without throwing, and
the href differs from the final URL of that response; when the probe
throws (with or without a response) or there is no truthy href, both
colors stay empty even if url differs from redirectedUrl. -/
theorem c3_theorem (probe : String → ProbeResult) (a : Anchor) :
    ((processLink probe a).originalUrlColor ≠ "" ↔
      (processLink probe a).redirectedUrlColor ≠ "") ∧
    ((processLink probe a).originalUrlColor ≠ "" ↔
      ∃ h st fu, a.href = some h ∧ h ≠ "" ∧
        probe h = ProbeResult.success st fu ∧ h ≠ fu) := by
  cases hh : a.href with
  | none => simp [processLink, hh]
  | some h =>
      by_cases hne : h = ""
      · subst hne
        simp [processLink, hh]
      · cases hp : probe h with
        | success st fu =>
            by_cases hfu : h = fu
            · subst hfu
              simp [processLink, hh, hne, hp]
            · simp [processLink, hh, hne, hp, hfu]
              exact ⟨st, fu, ⟨rfl, rfl⟩, hfu⟩
        | errorWithResponse st fu => simp [processLink, hh, hne, hp]
        | errorNoResponse => simp [processLink, hh, hne, hp]

/-- C3 witness: the amended theorem applied at a concrete anchor whose
probe follows a redirect, making both divergence colors non-empty. -/
theorem c3_witness :
    (processLink (fun _ => ProbeResult.success 200 "https://d.example/new")
      { href := some "https://d.example", text := "", ariaLabel := none,
        target := none, classNames := none }).originalUrlColor ≠ "" ∧
    (processLink (fun _ => ProbeResult.success 200 "https://d.example/new")
      { href := some "https://d.example", text := "", ariaLabel := none,
        target := none, classNames := none }).redirectedUrlColor ≠ "" := by
  have h := c3_theorem (fun _ => ProbeResult.success 200 "https://d.example/new")
    { href := some "https://d.example", text := "", ariaLabel := none,
      target := none, classNames := none }
  have h1 := h.2.mpr ⟨"https://d.example", 200, "https://d.example/new",
    rfl, by decide, rfl, by decide⟩
  exact ⟨h1, h.1.mp h1⟩

/-- C4: for any probe behavior, including probes failing with or without
a response, the batch over N anchors yields exactly N records, record i
being exactly what processLink produces for anchor i; processLink is a
total function, so no per-link condition escapes it or drops a record. -/
theorem c4_theorem (probe : String → ProbeResult) (anchors : List Anchor) :
    (collectLinkDetails probe anchors).length = anchors.length ∧
    ∀ i : Nat, (collectLinkDetails probe anchors)[i]? =
      (anchors[i]?).map (processLink probe) := by
  refine ⟨by simp [collectLinkDetails], fun i => ?_⟩
  simp [collectLinkDetails, List.getElem?_map]

/-- C5: over any completion schedule that is a permutation of the task
indices, the Promise.all join returns the records positionally, so the
output array has one record per anchor, at the position of that anchor
in the document, independent of completion order. -/
theorem c5_theorem (probe : String → ProbeResult) (anchors : List Anchor)
    (sched : List Nat)
    (hperm : sched.Perm (List.range anchors.length)) :
    promiseAllJoin (anchors.map (processLink probe)) sched =
      (collectLinkDetails probe anchors).map some ∧
    (collectLinkDetails probe anchors).length = anchors.length ∧
    ∀ i : Nat, (collectLinkDetails probe anchors)[i]? =
      (anchors[i]?).map (processLink probe) := by
  refine ⟨?_, by simp [collectLinkDetails], fun i => ?_⟩
  · exact promiseAllJoin_perm (anchors.map (processLink probe)) sched
      (by simpa using hperm)
  · simp [collectLinkDetails, List.getElem?_map]

/-- C5 witness: the order-preservation theorem applied to three concrete
anchors with the completion schedule in which the last anchor resolves
first. -/
theorem c5_witness :
    promiseAllJoin
      (List.map (processLink (fun _ => ProbeResult.success 200 "https://e.example"))
        [{ href := some "https://e1", text := "", ariaLabel := none,
           target := none, classNames := none },
         { href := some "https://e2", text := "", ariaLabel := none,
           target := none, classNames := none },
         { href := some "https://e3", text := "", ariaLabel := none,
           target := none, classNames := none }])
      [2, 0, 1] =
    (collectLinkDetails (fun _ => ProbeResult.success 200 "https://e.example")
      [{ href := some "https://e1", text := "", ariaLabel := none,
         target := none, classNames := none },
       { href := some "https://e2", text := "", ariaLabel := none,
         target := none, classNames := none },
       { href := some "https://e3", text := "", ariaLabel := none,
         target := none, classNames := none }]).map some :=
  (c5_theorem (fun _ => ProbeResult.success 200 "https://e.example")
    [{ href := some "https://e1", text := "", ariaLabel := none,
       target := none, classNames := none },
     { href := some "https://e2", text := "", ariaLabel := none,
       target := none, classNames := none },
     { href := some "https://e3", text := "", ariaLabel := none,
       target := none, classNames := none }]
    [2, 0, 1] (by decide)).1

/-- C6: on every code path of processLink, statusColor equals
getStatusColor applied to the statusCode stored in the same record. -/
theorem c6_theorem (probe : String → ProbeResult) (a : Anchor) :
    (processLink probe a).statusColor =
      getStatusColor (processLink probe a).statusCode := by
  cases hh : a.href with
  | none => simp [processLink, hh, getStatusColor]
  | some h =>
      by_cases hne : h = ""
      · simp [processLink, hh, hne, getStatusColor]
      · cases hp : probe h <;> simp [processLink, hh, hne, hp, getStatusColor]

/-- C7: when the anchor has a truthy href and the probe throws with no
response at all, the record keeps the prior defaults: statusCode 200,
statusColor green, redirectedUrl empty; processLink is total, so this
path cannot throw. -/
theorem c7_theorem (probe : String → ProbeResult) (a : Anchor) (h : String)
    (hh : a.href = some h) (hne : h ≠ "")
    (hp : probe h = ProbeResult.errorNoResponse) :
    (processLink probe a).statusCode = 200 ∧
    (processLink probe a).statusColor = "green" ∧
    (processLink probe a).redirectedUrl = "" := by
  simp [processLink, hh, hne, hp]

/-- C7 witness: the no-response theorem applied at a concrete anchor
whose probe yields no response. -/
theorem c7_witness :
    (processLink (fun _ => ProbeResult.errorNoResponse)
      { href := some "https://x/down", text := "", ariaLabel := none,
        target := none, classNames := none }).statusCode = 200 ∧
    (processLink (fun _ => ProbeResult.errorNoResponse)
      { href := some "https://x/down", text := "", ariaLabel := none,
        target := none, classNames := none }).statusColor = "green" ∧
    (processLink (fun _ => ProbeResult.errorNoResponse)
      { href := some "https://x/down", text := "", ariaLabel := none,
        target := none, classNames := none }).redirectedUrl = "" :=
  c7_theorem (fun _ => ProbeResult.errorNoResponse)
    { href := some "https://x/down", text := "", ariaLabel := none,
      target := none, classNames := none }
    "https://x/down" rfl (by decide) rfl

/-- C8: when the href attribute is absent or empty, the record gets
statusCode 200, statusColor green, redirectedUrl empty; the axios.get
guard is not reached, and the record does not depend on the probe. -/
theorem c8_theorem (probe probe2 : String → ProbeResult) (a : Anchor)
    (hh : a.href = none ∨ a.href = some "") :
    (processLink probe a).statusCode = 200 ∧
    (processLink probe a).statusColor = "green" ∧
    (processLink probe a).redirectedUrl = "" ∧
    probeCalled a = false ∧
    processLink probe a = processLink probe2 a := by
  rcases hh with hh | hh <;>
    simp [processLink, probeCalled, jsTruthy, hh]

/-- C8 witness: the no-href theorem applied at a concrete anchor with no
href attribute, against two probes that disagree everywhere. -/
theorem c8_witness :
    (processLink (fun _ => ProbeResult.success 200 "https://f.example")
      { href := none, text := "t", ariaLabel := none, target := none,
        classNames := none }).statusCode = 200 ∧
    (processLink (fun _ => ProbeResult.success 200 "https://f.example")
      { href := none, text := "t", ariaLabel := none, target := none,
        classNames := none }).statusColor = "green" ∧
    (processLink (fun _ => ProbeResult.success 200 "https://f.example")
      { href := none, text := "t", ariaLabel := none, target := none,
        classNames := none }).redirectedUrl = "" ∧
    probeCalled { href := none, text := "t", ariaLabel := none,
                  target := none, classNames := none } = false ∧
    processLink (fun _ => ProbeResult.success 200 "https://f.example")
      { href := none, text := "t", ariaLabel := none, target := none,
        classNames := none } =
      processLink (fun _ => ProbeResult.errorNoResponse)
        { href := none, text := "t", ariaLabel := none, target := none,
          classNames := none } :=
  c8_theorem (fun _ => ProbeResult.success 200 "https://f.example")
    (fun _ => ProbeResult.errorNoResponse)
    { href := none, text := "t", ariaLabel := none, target := none,
      classNames := none }
    (Or.inl rfl)

/-- C9: when fetching the source page throws, getPageContent yields no
document and the /link-details handler answers with the single 500
error response and no record array at all. -/
theorem c9_theorem (probe : String → ProbeResult) (includeUhf : Bool)
    (parse : String → List Anchor)
    (primaryAreaHtml : String → Option String) :
    linkDetailsHandler probe
        (getPageContent none includeUhf parse primaryAreaHtml) =
      HandlerResponse.err 500 "Failed to fetch page content." := rfl

/-- C10: the record always carries the raw href as its url; ariaLabel
and target are defaulted to the empty string when the attributes are
absent, while an absent href leaves url absent, so the JSON-serialized
record omits the url field. -/
theorem c10_theorem (probe : String → ProbeResult) (a : Anchor) :
    (processLink probe a).url = a.href ∧
    (a.ariaLabel = none → (processLink probe a).ariaLabel = "") ∧
    (a.target = none → (processLink probe a).target = "") ∧
    (a.href = none →
      (processLink probe a).url = none ∧
      jsonHasUrlField (processLink probe a) = false) := by
  have hurl : (processLink probe a).url = a.href := by
    cases hh : a.href with
    | none => simp [processLink, hh]
    | some h =>
        by_cases hne : h = ""
        · simp [processLink, hh, hne]
        · cases hp : probe h <;> simp [processLink, hh, hne, hp]
  refine ⟨hurl, fun hal => ?_, fun ht => ?_, fun hh => ?_⟩
  · cases hhh : a.href with
    | none => simp [processLink, hhh, hal]
    | some h =>
        by_cases hne : h = ""
        · simp [processLink, hhh, hne, hal]
        · cases hp : probe h <;> simp [processLink, hhh, hne, hp, hal]
  · cases hhh : a.href with
    | none => simp [processLink, hhh, ht]
    | some h =>
        by_cases hne : h = ""
        · simp [processLink, hhh, hne, ht]
        · cases hp : probe h <;> simp [processLink, hhh, hne, hp, ht]
  · refine ⟨hurl.trans hh, ?_⟩
    rw [jsonHasUrlField, hurl, hh]
    rfl

/-- C10 witness: the defaulting theorem applied at a concrete anchor
with no href, no aria-label and no target. -/
theorem c10_witness :
    (processLink (fun _ => ProbeResult.errorNoResponse)
      { href := none, text := "", ariaLabel := none, target := none,
        classNames := none }).ariaLabel = "" ∧
    (processLink (fun _ => ProbeResult.errorNoResponse)
      { href := none, text := "", ariaLabel := none, target := none,
        classNames := none }).target = "" ∧
    (processLink (fun _ => ProbeResult.errorNoResponse)
      { href := none, text := "", ariaLabel := none, target := none,
        classNames := none }).url = none ∧
    jsonHasUrlField (processLink (fun _ => ProbeResult.errorNoResponse)
      { href := none, text := "", ariaLabel := none, target := none,
        classNames := none }) = false := by
  have h := c10_theorem (fun _ => ProbeResult.errorNoResponse)
    { href := none, text := "", ariaLabel := none, target := none,
      classNames := none }
  exact ⟨h.2.1 rfl, h.2.2.1 rfl, (h.2.2.2 rfl).1, (h.2.2.2 rfl).2⟩
